import Mathlib

/-!
Formal model of `create_github_labels.py`.

The script is a linear procedure: it reads credentials, issues one GET to
list the labels of a repository, one DELETE per listed label, then one POST
per entry of a hardcoded catalog, printing one status line per DELETE/POST.

The embedding below represents a run of the script as a trace of events
(HTTP requests issued, in order, interleaved with the lines printed).  The
network is modelled as a function from requests to responses, supplied as a
parameter; the script never retries, so each request is consulted once at
the point the trace issues it.  `requests.Response.status_code` becomes the
`status` field, `Response.content` (bytes in Python, printed inside an
f-string) becomes the `content` string, and `Response.json()` on the listing
call becomes the `json` field, a list of records of which the script only
ever reads the `"name"` key.
-/

/-- HTTP method of a request issued by the script
(`requests.get`, `requests.delete`, `requests.post`). -/
inductive Method where
  | get
  | delete
  | post
  deriving DecidableEq

/-- An HTTP request as the script assembles it: method, full URL, the
header dictionary passed as `headers=...`, and the JSON body passed as
`json=label` on POSTs (a dictionary with string keys and values, modelled
as an association list in insertion order); GET and DELETE send no body. -/
structure Request where
  method : Method
  url : String
  headers : List (String × String)
  body : Option (List (String × String))
  deriving DecidableEq

/-- A label record as returned by the listing call's `response.json()`.
The script only ever accesses `label['name']`, so only that key is kept. -/
structure RemoteLabel where
  name : String
  deriving DecidableEq

/-- An HTTP response: `status_code`, raw body `content`, and the parsed
JSON list (meaningful only for the listing call). -/
structure Response where
  status : Nat
  content : String
  json : List RemoteLabel
  deriving DecidableEq

/-- One observable event of a run: an HTTP request issued, or a line
printed to standard output. -/
inductive Event where
  | req : Request → Event
  | out : String → Event
  deriving DecidableEq

/-- The requests issued along a trace, in order. -/
def requestsOf (t : List Event) : List Request :=
  t.filterMap fun e =>
    match e with
    | Event.req q => some q
    | Event.out _ => none

/-- The lines printed along a trace, in order. -/
def outputsOf (t : List Event) : List String :=
  t.filterMap fun e =>
    match e with
    | Event.out s => some s
    | Event.req _ => none

/-- The DELETE requests issued along a trace, in order. -/
def deleteRequestsOf (t : List Event) : List Request :=
  (requestsOf t).filter fun q => q.method == Method.delete

/-- A catalog entry: the script's label dictionaries have exactly the keys
`name`, `color` and `description`, in that order. -/
structure Label where
  name : String
  color : String
  description : String
  deriving DecidableEq

/-- The JSON object the script sends for a label: exactly the three fields
`name`, `color`, `description` of the dictionary literal. -/
def labelFields (l : Label) : List (String × String) :=
  [("name", l.name), ("color", l.color), ("description", l.description)]

/-- The labels endpoint `f"{api_url}/repos/{repo_owner}/{repo_name}/labels"`. -/
def labelsUrl (api_url repo_owner repo_name : String) : String :=
  api_url ++ "/repos/" ++ repo_owner ++ "/" ++ repo_name ++ "/labels"

/-- The listing request
`requests.get(f"{api_url}/repos/{repo_owner}/{repo_name}/labels", headers=headers)`. -/
def listRequest (api_url repo_owner repo_name : String)
    (headers : List (String × String)) : Request :=
  { method := Method.get
    url := labelsUrl api_url repo_owner repo_name
    headers := headers
    body := none }

/-- The per-label deletion request
`requests.delete(f"{api_url}/repos/{repo_owner}/{repo_name}/labels/{label['name']}", headers=headers)`:
the labels endpoint followed by a slash and the label's name. -/
def deleteRequest (api_url repo_owner repo_name : String)
    (headers : List (String × String)) (name : String) : Request :=
  { method := Method.delete
    url := labelsUrl api_url repo_owner repo_name ++ "/" ++ name
    headers := headers
    body := none }

/-- The per-label creation request
`requests.post(f"{api_url}/repos/{repo_owner}/{repo_name}/labels", headers=headers, json=label)`. -/
def postRequest (api_url repo_owner repo_name : String)
    (headers : List (String × String)) (label : Label) : Request :=
  { method := Method.post
    url := labelsUrl api_url repo_owner repo_name
    headers := headers
    body := some (labelFields label) }

/-- The status line printed for one deletion attempt:
`Successfully deleted label: {name}` when the DELETE returned 204,
`Failed to delete label: {name} - {content}` otherwise. -/
def deleteLine (T : Request → Response) (api_url repo_owner repo_name : String)
    (headers : List (String × String)) (label : RemoteLabel) : String :=
  if (T (deleteRequest api_url repo_owner repo_name headers label.name)).status = 204 then
    "Successfully deleted label: " ++ label.name
  else
    "Failed to delete label: " ++ label.name ++ " - "
      ++ (T (deleteRequest api_url repo_owner repo_name headers label.name)).content

/-- The status line printed for one creation attempt:
`Successfully created label: {name}` when the POST returned 201,
`Failed to create label: {name} - {content}` otherwise. -/
def createLine (T : Request → Response) (api_url repo_owner repo_name : String)
    (headers : List (String × String)) (label : Label) : String :=
  if (T (postRequest api_url repo_owner repo_name headers label)).status = 201 then
    "Successfully created label: " ++ label.name
  else
    "Failed to create label: " ++ label.name ++ " - "
      ++ (T (postRequest api_url repo_owner repo_name headers label)).content

/-- Trace of `delete_existing_labels(api_url, repo_owner, repo_name, headers)`:
issue the listing GET; if its status code is 200, iterate over the returned
labels, issuing one DELETE per label and printing
`Successfully deleted label: {name}` on status 204 and
`Failed to delete label: {name} - {content}` otherwise; if the listing
status code is not 200, do nothing further (no request, no print). -/
def delete_existing_labels (api_url repo_owner repo_name : String)
    (headers : List (String × String)) (T : Request → Response) : List Event :=
  Event.req (listRequest api_url repo_owner repo_name headers) ::
    (if (T (listRequest api_url repo_owner repo_name headers)).status = 200 then
      ((T (listRequest api_url repo_owner repo_name headers)).json.map fun label =>
        [Event.req (deleteRequest api_url repo_owner repo_name headers label.name),
         Event.out (deleteLine T api_url repo_owner repo_name headers label)]).flatten
    else [])

/-- Trace of `create_labels(api_url, repo_owner, repo_name, headers, labels_to_create)`:
for each catalog entry in order, issue one POST carrying the label's three
fields as JSON body, printing `Successfully created label: {name}` on
status 201 and `Failed to create label: {name} - {content}` otherwise. -/
def create_labels (api_url repo_owner repo_name : String)
    (headers : List (String × String)) (labels_to_create : List Label)
    (T : Request → Response) : List Event :=
  (labels_to_create.map fun label =>
    [Event.req (postRequest api_url repo_owner repo_name headers label),
     Event.out (createLine T api_url repo_owner repo_name headers label)]).flatten

/-- The fixed base URL `api_url = "https://api.github.com"`. -/
def api_url : String := "https://api.github.com"

/-- The header dictionary built from the token read by `getpass`:
`{"Authorization": f"token {token}", "Accept": "application/vnd.github.v3+json"}`. -/
def headers (token : String) : List (String × String) :=
  [("Authorization", "token " ++ token),
   ("Accept", "application/vnd.github.v3+json")]

/-- The hardcoded catalog `labels_to_create`, transcribed entry by entry
from the source list literal. -/
def labels_to_create : List Label :=
  [{ name := "bug", color := "d73a4a",
     description := "Indicates a problem that impairs or prevents the functions of the product" },
   { name := "dependencies", color := "0366d6",
     description := "Concerns outdated, broken, or problematic dependencies" },
   { name := "documentation", color := "0075ca",
     description := "Relates to improvements or additions to documentation" },
   { name := "duplicate", color := "cfd3d7",
     description := "Signals an issue that has already been reported, often with a reference to the original" },
   { name := "enhancement", color := "a2eeef",
     description := "Suggests a new feature or improvement to existing functionality" },
   { name := "environment", color := "f9d0c4",
     description := "Involves issues related to the project's development, testing, or production environment" },
   { name := "good first issue", color := "7057ff",
     description := "Suitable for first-time contributors, these issues are a great way to get involved" },
   { name := "help wanted", color := "008672",
     description := "Requests assistance from the community or team members for an issue or initiative" },
   { name := "invalid", color := "e4e669",
     description := "Marks an issue that is no longer relevant or that has been filed incorrectly" },
   { name := "performance", color := "fbca04",
     description := "Highlights areas of the codebase that could be optimized for speed and efficiency" },
   { name := "question", color := "d876e3",
     description := "Seeks further information or clarification on a topic or issue" },
   { name := "refactor", color := "1d76db",
     description := "Suggests improvements for code organization or architecture without altering behavior" },
   { name := "security", color := "b60205",
     description := "Concerns or reports related to security vulnerabilities" },
   { name := "test-case", color := "5319e7",
     description := "Indicates missing tests or proposes new ones for better coverage" },
   { name := "user-story", color := "c2e0c6",
     description := "Describes a software feature from an end-user perspective, focusing on their needs and experiences" },
   { name := "violation", color := "e11d21",
     description := "Pertains to vulnerabilities that could impact the security of the project" },
   { name := "wontfix", color := "000000",
     description := "Acknowledges an issue that the project has decided not to address at the present time" }]

/-- The whole run of the script's top level: purge then seed, strictly in
this order, with the same base URL, credentials and headers threaded into
both calls. -/
def runProgram (repo_owner repo_name token : String) (T : Request → Response) : List Event :=
  delete_existing_labels api_url repo_owner repo_name (headers token) T
    ++ create_labels api_url repo_owner repo_name (headers token) labels_to_create T

/-- A 6-character string of hexadecimal digits. -/
def isHexDigitChar (c : Char) : Bool :=
  (Char.ofNat 48 ≤ c && c ≤ Char.ofNat 57)
    || (Char.ofNat 97 ≤ c && c ≤ Char.ofNat 102)
    || (Char.ofNat 65 ≤ c && c ≤ Char.ofNat 70)

/-- Predicate for a 6-hex-digit color string. -/
def isHex6 (s : String) : Bool :=
  s.length == 6 && s.toList.all isHexDigitChar

/-- A success HTTP status in the usual sense: any 2xx code. -/
def isSuccessStatus (s : Nat) : Prop :=
  200 ≤ s ∧ s < 300

instance (s : Nat) : Decidable (isSuccessStatus s) := by
  unfold isSuccessStatus
  infer_instance

/-- A transport that answers every request with the same response. -/
def constTransport (resp : Response) : Request → Response :=
  fun _ => resp

/-- A transport for exercising the purge phase: the listing succeeds with
two labels, deleting `bug` succeeds with 204, every other deletion fails
with 500 and body `boom`. -/
def listingFixture : Request → Response :=
  fun q =>
    if q.method = Method.get then
      { status := 200, content := "", json := [{ name := "bug" }, { name := "x" }] }
    else if q.url = "A/repos/o/r/labels/bug" then
      { status := 204, content := "", json := [] }
    else
      { status := 500, content := "boom", json := [] }

/-- The first catalog entry, used to exercise a duplicate-name failure. -/
def bugLabel : Label :=
  { name := "bug", color := "d73a4a",
    description := "Indicates a problem that impairs or prevents the functions of the product" }

/-- A transport for exercising the seed phase: the POST for the `bug`
catalog entry fails with 422 and body `Validation Failed`, every other
request succeeds with 201. -/
def dupFixture : Request → Response :=
  fun q =>
    if q.body = some (labelFields bugLabel) then
      { status := 422, content := "Validation Failed", json := [] }
    else
      { status := 201, content := "", json := [] }

/-- A transport whose every response is HTTP 404. -/
def notFoundFixture : Request → Response :=
  constTransport { status := 404, content := "Not Found", json := [] }

/-- A transport whose every response is HTTP 206, a success status other
than 200. -/
def fixture206 : Request → Response :=
  constTransport { status := 206, content := "Partial Content", json := [] }

/-- A transport whose every response is HTTP 200 with an empty label list. -/
def okFixture : Request → Response :=
  constTransport { status := 200, content := "", json := [] }

/-! Basic facts about trace projections. -/

@[simp] theorem requestsOf_nil : requestsOf [] = [] := rfl

@[simp] theorem requestsOf_cons_req (q : Request) (t : List Event) :
    requestsOf (Event.req q :: t) = q :: requestsOf t := rfl

@[simp] theorem requestsOf_cons_out (s : String) (t : List Event) :
    requestsOf (Event.out s :: t) = requestsOf t := rfl

@[simp] theorem requestsOf_append (t u : List Event) :
    requestsOf (t ++ u) = requestsOf t ++ requestsOf u :=
  List.filterMap_append t u _

@[simp] theorem outputsOf_nil : outputsOf [] = [] := rfl

@[simp] theorem outputsOf_cons_req (q : Request) (t : List Event) :
    outputsOf (Event.req q :: t) = outputsOf t := rfl

@[simp] theorem outputsOf_cons_out (s : String) (t : List Event) :
    outputsOf (Event.out s :: t) = s :: outputsOf t := rfl

@[simp] theorem outputsOf_append (t u : List Event) :
    outputsOf (t ++ u) = outputsOf t ++ outputsOf u :=
  List.filterMap_append t u _

/-- Requests of a flattened list of request/print pairs. -/
theorem requestsOf_steps {α : Type} (f : α → Request) (g : α → String) (xs : List α) :
    requestsOf ((xs.map fun a => [Event.req (f a), Event.out (g a)]).flatten) = xs.map f := by
  induction xs with
  | nil => rfl
  | cons a xs ih => simp [ih]

/-- Printed lines of a flattened list of request/print pairs. -/
theorem outputsOf_steps {α : Type} (f : α → Request) (g : α → String) (xs : List α) :
    outputsOf ((xs.map fun a => [Event.req (f a), Event.out (g a)]).flatten) = xs.map g := by
  induction xs with
  | nil => rfl
  | cons a xs ih => simp [ih]

/-! Shape of the purge phase's trace. -/

/-- When the listing call returns 200, the purge issues the GET and then one
DELETE per returned label, in order. -/
theorem purge_requests_200 (a o r : String) (h : List (String × String))
    (T : Request → Response) (hs : (T (listRequest a o r h)).status = 200) :
    requestsOf (delete_existing_labels a o r h T)
      = listRequest a o r h
          :: (T (listRequest a o r h)).json.map (fun l => deleteRequest a o r h l.name) := by
  unfold delete_existing_labels
  rw [if_pos hs, requestsOf_cons_req, requestsOf_steps]

/-- When the listing call does not return 200, the purge issues only the GET. -/
theorem purge_requests_ne (a o r : String) (h : List (String × String))
    (T : Request → Response) (hne : (T (listRequest a o r h)).status ≠ 200) :
    requestsOf (delete_existing_labels a o r h T) = [listRequest a o r h] := by
  unfold delete_existing_labels
  rw [if_neg hne, requestsOf_cons_req, requestsOf_nil]

/-- The lines printed by the purge phase: nothing unless the listing call
returned 200, one line per returned label otherwise. -/
theorem purge_outputs (a o r : String) (h : List (String × String))
    (T : Request → Response) :
    outputsOf (delete_existing_labels a o r h T)
      = if (T (listRequest a o r h)).status = 200 then
          (T (listRequest a o r h)).json.map (deleteLine T a o r h)
        else [] := by
  unfold delete_existing_labels
  by_cases hs : (T (listRequest a o r h)).status = 200
  · rw [if_pos hs, if_pos hs, outputsOf_cons_req, outputsOf_steps]
  · rw [if_neg hs, if_neg hs, outputsOf_cons_req, outputsOf_nil]

/-! Shape of the seed phase's trace. -/

/-- The seed phase issues exactly one POST per given label, in order. -/
theorem seed_requests (a o r : String) (h : List (String × String))
    (ls : List Label) (T : Request → Response) :
    requestsOf (create_labels a o r h ls T) = ls.map (postRequest a o r h) := by
  unfold create_labels
  rw [requestsOf_steps]

/-- The seed phase prints exactly one status line per given label, in order. -/
theorem seed_outputs (a o r : String) (h : List (String × String))
    (ls : List Label) (T : Request → Response) :
    outputsOf (create_labels a o r h ls T) = ls.map (createLine T a o r h) := by
  unfold create_labels
  rw [outputsOf_steps]

/-- The seed phase issues no DELETE request at all. -/
theorem seed_no_deletes (a o r : String) (h : List (String × String))
    (ls : List Label) (T : Request → Response) :
    deleteRequestsOf (create_labels a o r h ls T) = [] := by
  rw [deleteRequestsOf, seed_requests]
  rw [List.filter_eq_nil_iff]
  intro q hq
  rcases List.mem_map.mp hq with ⟨l, _, rfl⟩
  simp [postRequest]

/-- A purge whose listing call did not return 200 issues no DELETE request. -/
theorem purge_no_deletes_ne (a o r : String) (h : List (String × String))
    (T : Request → Response) (hne : (T (listRequest a o r h)).status ≠ 200) :
    deleteRequestsOf (delete_existing_labels a o r h T) = [] := by
  rw [deleteRequestsOf, purge_requests_ne a o r h T hne]
  simp [listRequest]

/-- The catalog's labels are pairwise distinct records. -/
theorem labels_to_create_nodup : labels_to_create.Nodup :=
  List.Nodup.of_map Label.name (by decide)

/-- Two labels with the same field list are the same label. -/
theorem labelFields_injective : Function.Injective labelFields := by
  intro a b hab
  simp only [labelFields, List.cons.injEq, Prod.mk.injEq, true_and, and_true] at hab
  cases a
  cases b
  simp_all

/-- Two catalog entries giving rise to the same POST are the same entry. -/
theorem postRequest_injective (a o r : String) (h : List (String × String)) :
    Function.Injective (postRequest a o r h) := by
  intro x y hxy
  have hb := congrArg Request.body hxy
  simp only [postRequest, Option.some.injEq] at hb
  exact labelFields_injective hb

@[simp] theorem deleteRequestsOf_append (t u : List Event) :
    deleteRequestsOf (t ++ u) = deleteRequestsOf t ++ deleteRequestsOf u := by
  rw [deleteRequestsOf, requestsOf_append, List.filter_append]
  rfl

/-- C1 counterexample: the seed phase issues 17 create requests, one per
catalog entry, not 16 as the spec counts. -/
theorem C1_counterexample :
    (requestsOf (create_labels "A" "o" "r" [] labels_to_create
        (constTransport { status := 201, content := "", json := [] }))).length ≠ 16 := by
  rw [seed_requests, List.length_map]
  decide

/-- C1 (amended: the catalog has 17 entries, not 16): the seed phase issues
exactly one create request per entry of the fixed catalog, in catalog
order; the requests are pairwise distinct, and every request body carries
exactly the fields name, color, description, in that order. -/
theorem C1_one_create_per_entry (a o r : String) (h : List (String × String))
    (T : Request → Response) :
    requestsOf (create_labels a o r h labels_to_create T)
        = labels_to_create.map (postRequest a o r h)
      ∧ (labels_to_create.map (postRequest a o r h)).Nodup
      ∧ labels_to_create.length = 17
      ∧ labels_to_create.all
          (fun l => (labelFields l).map Prod.fst == ["name", "color", "description"]) = true :=
  ⟨seed_requests a o r h labels_to_create T,
   labels_to_create_nodup.map (postRequest_injective a o r h),
   by decide, by decide⟩

/-- C2: if the listing call does not return a success (2xx) status, the
purge phase issues zero delete requests. -/
theorem C2_no_success_no_deletes (a o r : String) (h : List (String × String))
    (T : Request → Response)
    (hns : ¬ isSuccessStatus (T (listRequest a o r h)).status) :
    deleteRequestsOf (delete_existing_labels a o r h T) = [] := by
  apply purge_no_deletes_ne
  intro he
  apply hns
  rw [he]
  decide

/-- C2 witness: a 404 listing response is not a success status, and the
purge then issues no delete request. -/
theorem C2_witness :
    ¬ isSuccessStatus ((notFoundFixture (listRequest api_url "octo" "repo" (headers "tok"))).status)
      ∧ deleteRequestsOf
          (delete_existing_labels api_url "octo" "repo" (headers "tok") notFoundFixture) = [] :=
  ⟨by decide,
   C2_no_success_no_deletes api_url "octo" "repo" (headers "tok") notFoundFixture (by decide)⟩

/-- C3: the run is the purge trace followed by the seed trace, the purge
issues no POST and the seed issues only POSTs (so delete-all strictly
precedes create-all), and when the listing call returns 404 the run issues
no delete request while the seed phase still issues one create request per
catalog entry. -/
theorem C3_purge_then_seed (o r tok : String) (T : Request → Response) :
    runProgram o r tok T
        = delete_existing_labels api_url o r (headers tok) T
            ++ create_labels api_url o r (headers tok) labels_to_create T
      ∧ (requestsOf (delete_existing_labels api_url o r (headers tok) T)).all
          (fun q => !(q.method == Method.post)) = true
      ∧ (requestsOf (create_labels api_url o r (headers tok) labels_to_create T)).all
          (fun q => q.method == Method.post) = true
      ∧ ((T (listRequest api_url o r (headers tok))).status = 404 →
          deleteRequestsOf (runProgram o r tok T) = []
            ∧ requestsOf (create_labels api_url o r (headers tok) labels_to_create T)
                = labels_to_create.map (postRequest api_url o r (headers tok))) := by
  refine ⟨rfl, ?_, ?_, ?_⟩
  · by_cases hs : (T (listRequest api_url o r (headers tok))).status = 200
    · rw [purge_requests_200 _ _ _ _ _ hs]
      simp [List.all_eq_true, listRequest, deleteRequest]
    · rw [purge_requests_ne _ _ _ _ _ hs]
      simp [listRequest]
  · rw [seed_requests]
    simp [List.all_eq_true, postRequest]
  · intro h404
    have hne : (T (listRequest api_url o r (headers tok))).status ≠ 200 := by
      rw [h404]
      decide
    constructor
    · unfold runProgram
      rw [deleteRequestsOf_append, purge_no_deletes_ne _ _ _ _ _ hne,
        seed_no_deletes]
      rfl
    · exact seed_requests _ _ _ _ _ _

/-- C3 witness: with every response 404, the run is purge then seed, no
delete request is issued, and all catalog creates are still attempted. -/
theorem C3_witness :
    runProgram "o" "r" "t" notFoundFixture
        = delete_existing_labels api_url "o" "r" (headers "t") notFoundFixture
            ++ create_labels api_url "o" "r" (headers "t") labels_to_create notFoundFixture
      ∧ deleteRequestsOf (runProgram "o" "r" "t" notFoundFixture) = []
      ∧ requestsOf (create_labels api_url "o" "r" (headers "t") labels_to_create notFoundFixture)
          = labels_to_create.map (postRequest api_url "o" "r" (headers "t")) := by
  have H := C3_purge_then_seed "o" "r" "t" notFoundFixture
  exact ⟨H.1, (H.2.2.2 (by decide)).1, (H.2.2.2 (by decide)).2⟩

/-- C4: when the listing call returns 200, the purge issues exactly one
DELETE per returned label, in order, each addressed at the labels endpoint
followed by a slash and the label's name. -/
theorem C4_delete_per_label (a o r : String) (h : List (String × String))
    (T : Request → Response) (hs : (T (listRequest a o r h)).status = 200) :
    deleteRequestsOf (delete_existing_labels a o r h T)
        = (T (listRequest a o r h)).json.map (fun l => deleteRequest a o r h l.name)
      ∧ (T (listRequest a o r h)).json.map (fun l => (deleteRequest a o r h l.name).url)
        = (T (listRequest a o r h)).json.map (fun l => (listRequest a o r h).url ++ "/" ++ l.name) := by
  constructor
  · rw [deleteRequestsOf, purge_requests_200 a o r h T hs]
    rw [List.filter_cons_of_neg (by simp [listRequest])]
    apply List.filter_eq_self.mpr
    intro q hq
    rcases List.mem_map.mp hq with ⟨l, -, rfl⟩
    simp [deleteRequest]
  · apply List.map_congr_left
    intro l _
    rfl

/-- C4 witness: a 200 listing with labels `bug` and `x` makes the purge
issue exactly the two matching DELETE requests, in order. -/
theorem C4_witness :
    (listingFixture (listRequest "A" "o" "r" [])).status = 200
      ∧ deleteRequestsOf (delete_existing_labels "A" "o" "r" [] listingFixture)
          = [deleteRequest "A" "o" "r" [] "bug", deleteRequest "A" "o" "r" [] "x"] := by
  refine ⟨by decide, ?_⟩
  rw [(C4_delete_per_label "A" "o" "r" [] listingFixture (by decide)).1]
  decide

/-- C5: when the listing call returns 200, each deletion prints the
deleted line on a 204 response and otherwise the failed line carrying the
raw response body, one line per returned label in order. -/
theorem C5_delete_outcomes (a o r : String) (h : List (String × String))
    (T : Request → Response) (hs : (T (listRequest a o r h)).status = 200) :
    outputsOf (delete_existing_labels a o r h T)
      = (T (listRequest a o r h)).json.map (fun l =>
          if (T (deleteRequest a o r h l.name)).status = 204 then
            "Successfully deleted label: " ++ l.name
          else
            "Failed to delete label: " ++ l.name ++ " - "
              ++ (T (deleteRequest a o r h l.name)).content) := by
  rw [purge_outputs, if_pos hs]
  apply List.map_congr_left
  intro l _
  rfl

/-- C5 witness: deleting `bug` answers 204 and reports success, deleting
`x` answers 500 with body `boom` and reports failure carrying that body. -/
theorem C5_witness :
    (listingFixture (listRequest "A" "o" "r" [])).status = 200
      ∧ outputsOf (delete_existing_labels "A" "o" "r" [] listingFixture)
          = ["Successfully deleted label: bug", "Failed to delete label: x - boom"] := by
  refine ⟨by decide, ?_⟩
  rw [C5_delete_outcomes "A" "o" "r" [] listingFixture (by decide)]
  decide

/-- C6: each creation in the seed phase prints the created line on a 201
response and otherwise the failed line carrying the raw response body, one
line per catalog entry in order. -/
theorem C6_create_outcomes (a o r : String) (h : List (String × String))
    (T : Request → Response) :
    outputsOf (create_labels a o r h labels_to_create T)
      = labels_to_create.map (fun l =>
          if (T (postRequest a o r h l)).status = 201 then
            "Successfully created label: " ++ l.name
          else
            "Failed to create label: " ++ l.name ++ " - "
              ++ (T (postRequest a o r h l)).content) := by
  rw [seed_outputs]
  apply List.map_congr_left
  intro l _
  rfl

/-- C7: create operations are independent per item: if the POST for one
catalog entry does not return 201, that entry's failure line carrying the
response body is printed, and every catalog entry's POST is still issued. -/
theorem C7_create_independent (a o r : String) (h : List (String × String))
    (T : Request → Response) (l : Label) (hmem : l ∈ labels_to_create)
    (hfail : (T (postRequest a o r h l)).status ≠ 201) :
    ("Failed to create label: " ++ l.name ++ " - " ++ (T (postRequest a o r h l)).content)
        ∈ outputsOf (create_labels a o r h labels_to_create T)
      ∧ requestsOf (create_labels a o r h labels_to_create T)
          = labels_to_create.map (postRequest a o r h) := by
  constructor
  · rw [seed_outputs]
    have hline : createLine T a o r h l
        = "Failed to create label: " ++ l.name ++ " - " ++ (T (postRequest a o r h l)).content := by
      simp only [createLine]
      rw [if_neg hfail]
    rw [← hline]
    exact List.mem_map_of_mem _ hmem
  · exact seed_requests a o r h labels_to_create T

/-- C7 witness: the `bug` create answers 422 with body `Validation Failed`,
its failure line is printed, and all 17 catalog POSTs are still issued. -/
theorem C7_witness :
    bugLabel ∈ labels_to_create
      ∧ (dupFixture (postRequest api_url "o" "r" (headers "t") bugLabel)).status ≠ 201
      ∧ ("Failed to create label: bug - Validation Failed")
          ∈ outputsOf (create_labels api_url "o" "r" (headers "t") labels_to_create dupFixture)
      ∧ requestsOf (create_labels api_url "o" "r" (headers "t") labels_to_create dupFixture)
          = labels_to_create.map (postRequest api_url "o" "r" (headers "t")) := by
  have H := C7_create_independent api_url "o" "r" (headers "t") dupFixture bugLabel
    (by decide) (by decide)
  have heq : ("Failed to create label: " ++ bugLabel.name ++ " - "
        ++ (dupFixture (postRequest api_url "o" "r" (headers "t") bugLabel)).content)
      = "Failed to create label: bug - Validation Failed" := by decide
  exact ⟨by decide, by decide, heq ▸ H.1, H.2⟩

/-- C8 counterexample: the embedded catalog has 17 entries, not 16. -/
theorem C8_counterexample : labels_to_create.length ≠ 16 := by decide

/-- C8 (amended: 17 entries, not 16): the embedded catalog is a static
list of 17 labels, each a record with exactly the fields name, color and
description, every color is a 6-hex-digit string, and the names are
pairwise distinct. -/
theorem C8_catalog_wellformed :
    labels_to_create.length = 17
      ∧ (labels_to_create.map Label.name).Nodup
      ∧ labels_to_create.all (fun l => isHex6 l.color) = true
      ∧ labels_to_create.all
          (fun l => (labelFields l).map Prod.fst == ["name", "color", "description"]) = true :=
  ⟨by decide, by decide, by decide, by decide⟩

/-- C9: the token is never logged: two runs that differ only in the token
but receive identical responses to the same method, URL and body print
identical lines, so no printed line carries information about the token. -/
theorem C9_token_not_logged (o r t1 t2 : String) (T : Request → Response)
    (hAgree : ∀ (m : Method) (u : String) (b : Option (List (String × String))),
      T { method := m, url := u, headers := headers t1, body := b }
        = T { method := m, url := u, headers := headers t2, body := b }) :
    outputsOf (runProgram o r t1 T) = outputsOf (runProgram o r t2 T) := by
  have hlist : T (listRequest api_url o r (headers t1))
      = T (listRequest api_url o r (headers t2)) :=
    hAgree Method.get (labelsUrl api_url o r) none
  unfold runProgram
  rw [outputsOf_append, outputsOf_append]
  congr 1
  · rw [purge_outputs, purge_outputs, hlist]
    by_cases hs : (T (listRequest api_url o r (headers t2))).status = 200
    · rw [if_pos hs, if_pos hs]
      apply List.map_congr_left
      intro l _
      have hdel : T (deleteRequest api_url o r (headers t1) l.name)
          = T (deleteRequest api_url o r (headers t2) l.name) :=
        hAgree Method.delete (labelsUrl api_url o r ++ "/" ++ l.name) none
      simp only [deleteLine]
      rw [hdel]
    · rw [if_neg hs, if_neg hs]
  · rw [seed_outputs, seed_outputs]
    apply List.map_congr_left
    intro l _
    have hpost : T (postRequest api_url o r (headers t1) l)
        = T (postRequest api_url o r (headers t2) l) :=
      hAgree Method.post (labelsUrl api_url o r) (some (labelFields l))
    simp only [createLine]
    rw [hpost]

/-- C9 witness: with a constant transport, runs with tokens `alpha` and
`beta` print identical lines. -/
theorem C9_witness :
    outputsOf (runProgram "o" "r" "alpha" okFixture)
      = outputsOf (runProgram "o" "r" "beta" okFixture) :=
  C9_token_not_logged "o" "r" "alpha" "beta" okFixture (fun _ _ _ => rfl)

/-- C10: the purge proceeds only on a listing status of exactly 200: for
any other status, including the success status 206, it issues no delete
request and prints nothing, returning normally. -/
theorem C10_purge_only_on_200 (a o r : String) (h : List (String × String))
    (T : Request → Response) (hne : (T (listRequest a o r h)).status ≠ 200) :
    deleteRequestsOf (delete_existing_labels a o r h T) = []
      ∧ outputsOf (delete_existing_labels a o r h T) = [] :=
  ⟨purge_no_deletes_ne a o r h T hne, by rw [purge_outputs, if_neg hne]⟩

/-- C10 witness: a 206 listing response, although a success status, makes
the purge issue no delete request and print nothing. -/
theorem C10_witness :
    isSuccessStatus ((fixture206 (listRequest api_url "o" "r" (headers "t"))).status)
      ∧ deleteRequestsOf (delete_existing_labels api_url "o" "r" (headers "t") fixture206) = []
      ∧ outputsOf (delete_existing_labels api_url "o" "r" (headers "t") fixture206) = [] := by
  have H := C10_purge_only_on_200 api_url "o" "r" (headers "t") fixture206 (by decide)
  exact ⟨by decide, H.1, H.2⟩
